import Mathlib

/-!
Verification of the unsent_letter backend server: shallow embedding of the
token-exchange and verification pipeline, the authentication gate, the AI
provider selection and reply orchestration, the Anthropic message
conversion, and the streaming relay line-buffering logic, together with
theorems settling the behavioural claims about them.

Sources embedded:
  server/src/lib/jwt.js            (JWTService: signServerJWT, verifyServerJWT)
  server/src/lib/google.ts         (GoogleAuthService.verifyIdToken)
  server/dist/lib/apple.js         (AppleAuthService.verifyIdToken, isEmailVerified)
  server routes/auth (exchange)    (router.post exchange)
  server/src/routes/ai.ts          (authRequired, validateContentLength,
                                    getAIProvider, addSystemPrompt, reply handler)
  server/dist/providers/anthropic.js (convertMessages)
  server/dist/providers/openai.js  (streamResponse line buffering)
  server/dist/providers/local.js   (streamOllamaResponse line buffering)
-/

/-! ## Access Token Service (server/src/lib/jwt.js) -/

/-- Configuration of the JWTService singleton: private signing key (abstracted
as a key identifier), issuer, audience and lifetime, read from the environment
at startup. -/
structure JWTConfig where
  privateKey : Nat
  issuer : String
  audience : String
  expiresIn : Nat
  deriving Repr, DecidableEq

/-- The claims payload carried by a server-issued access token, as built by
signServerJWT: sub, provider, iat, exp, iss, aud. -/
structure JWTClaims where
  sub : String
  provider : String
  iat : Nat
  exp : Nat
  iss : String
  aud : String
  deriving Repr, DecidableEq

/-- A signed token: its claims plus the identity of the key whose signature it
carries.  A token verifies against the public key derived from a private key
exactly when it was signed with that private key. -/
structure SignedJWT where
  claims : JWTClaims
  sigKey : Nat
  deriving Repr, DecidableEq

/-- signServerJWT (server/src/lib/jwt.js lines 21 to 41): builds the claims
with iat = now and exp = now + expiresIn, the configured issuer and audience,
and signs with the configured private key. -/
def signServerJWT (cfg : JWTConfig) (sub provider : String) (now : Nat) : SignedJWT :=
  { claims :=
      { sub := sub
        provider := provider
        iat := now
        exp := now + cfg.expiresIn
        iss := cfg.issuer
        aud := cfg.audience }
    sigKey := cfg.privateKey }

/-- Modelled from the spec: the jose jwtVerify call used by verifyServerJWT is
library code not present under src/.  Per the spec it checks the signature
against the public key derived from the private signing key, issuer equality,
audience membership, and expiry; the token is valid until now exceeds exp,
after which verification fails. -/
def jwtVerify (tok : SignedJWT) (key : Nat) (issuer audience : String) (now : Nat) :
    Except String JWTClaims :=
  if tok.sigKey ≠ key then .error "signature verification failed"
  else if tok.claims.iss ≠ issuer then .error "unexpected iss claim value"
  else if tok.claims.aud ≠ audience then .error "unexpected aud claim value"
  else if now > tok.claims.exp then .error "exp claim timestamp check failed"
  else .ok tok.claims

/-- verifyServerJWT (server/src/lib/jwt.js lines 46 to 60): verifies against
the public key derived from the private key with the configured issuer and
audience; any failure is rethrown with the Invalid JWT prefix. -/
def verifyServerJWT (cfg : JWTConfig) (tok : SignedJWT) (now : Nat) :
    Except String JWTClaims :=
  match jwtVerify tok cfg.privateKey cfg.issuer cfg.audience now with
  | .ok p => .ok p
  | .error e => .error ("Invalid JWT: " ++ e)

/-- extractUserContext (server/src/lib/jwt.js lines 65 to 70). -/
def extractUserContext (p : JWTClaims) : String × String :=
  (p.sub, p.provider)

/-- The JavaScript string method startsWith, modelled on the character
list underlying the string. -/
def jsStartsWith (s p : String) : Bool := p.data.isPrefixOf s.data

/-- The JavaScript string method substring(n) for n up to the length,
modelled on the character list underlying the string. -/
def jsDrop (s : String) (n : Nat) : String := String.mk (s.data.drop n)

/-! ## Authentication Gate (server/src/routes/ai.ts authRequired, lines 262 to 314) -/

/-- Outcome of the required authentication middleware: either a rejection with
an HTTP status and error code, or admission with the attached user identity
(userId, provider) extracted from the verified claims. -/
inductive AuthOutcome where
  | reject (status : Nat) (code : String)
  | accept (userId provider : String)
  deriving Repr, DecidableEq

/-- authRequired: the required authentication gate.  The header is absent (or
empty, which is falsy in the source) gives MISSING_AUTH_HEADER; a header not
starting with the Bearer scheme gives INVALID_AUTH_FORMAT; an empty token
after the scheme gives MISSING_TOKEN; a verification failure gives
INVALID_TOKEN; on success the user context is attached and the request
let through.  Access-token verification is the verifyServerJWT call, abstracted
here as a function from the token string to a claims result. -/
def authRequired (verify : String → Except String JWTClaims)
    (authHeader : Option String) : AuthOutcome :=
  match authHeader with
  | none => .reject 401 "MISSING_AUTH_HEADER"
  | some h =>
    if h = "" then .reject 401 "MISSING_AUTH_HEADER"
    else if ¬ jsStartsWith h "Bearer " then .reject 401 "INVALID_AUTH_FORMAT"
    else
      let token := jsDrop h 7
      if token = "" then .reject 401 "MISSING_TOKEN"
      else
        match verify token with
        | .ok p => .accept (extractUserContext p).1 (extractUserContext p).2
        | .error _ => .reject 401 "INVALID_TOKEN"

/-! ## String helpers for the JavaScript methods includes and toLowerCase -/

/-- The JavaScript string method includes, on character lists: the pattern
occurs contiguously somewhere in the list. -/
def containsSub (pat : List Char) : List Char → Bool
  | [] => pat.isEmpty
  | l@(_ :: cs) => pat.isPrefixOf l || containsSub pat cs

/-- The JavaScript string method includes, on strings. -/
def strContains (s pat : String) : Bool := containsSub pat.data s.data

/-- The JavaScript string method toLowerCase, modelled on the character list
underlying the string. -/
def jsToLower (s : String) : String := String.mk (s.data.map Char.toLower)

/-! ## Identity Verifiers (server/src/lib/google.ts, server/dist/lib/apple.js) -/

/-- The claims of an externally issued Google identity token after the jose
signature, issuer, audience and expiry checks.  An absent subject claim is
modelled as the empty string, which is falsy in the source. -/
structure GooglePayload where
  sub : String
  email : Option String
  email_verified : Option Bool
  name : Option String
  deriving Repr, DecidableEq

/-- The normalized user identity extracted from a verified external token.
The Google picture field and the Apple display-name assembly are omitted;
no claim refers to them. -/
structure UserInfo where
  userId : String
  email : Option String
  name : Option String
  deriving Repr, DecidableEq

/-- JavaScript truthiness of an optional string claim: present and
non-empty. -/
def emailTruthy : Option String → Bool
  | some e => e ≠ ""
  | none => false

namespace Google

/-- The additional claim checks of GoogleAuthService.verifyIdToken
(server/src/lib/google.ts lines 53 to 62), run after the jose verification:
a falsy sub is rejected, and a falsy email_verified (absent or false) is
rejected. -/
def claimChecks (p : GooglePayload) : Except String GooglePayload :=
  if p.sub = "" then .error "Invalid token: missing subject"
  else if p.email_verified ≠ some true then .error "Email not verified"
  else .ok p

/-- GoogleAuthService.verifyIdToken: fails before the try block when no
audience is configured; inside the try block the jose verification (audience,
issuer, signature, expiry, abstracted as the joseVerify argument) is followed
by claimChecks, and any error from the try block is rethrown with the Google
token verification failed prefix. -/
def verifyIdToken (configured : Bool)
    (joseVerify : String → Except String GooglePayload)
    (idToken : String) : Except String GooglePayload :=
  if ¬ configured then .error "Google Sign-In not configured"
  else
    match (match joseVerify idToken with
           | .error e => Except.error e
           | .ok p => claimChecks p) with
    | .ok p => .ok p
    | .error e => .error ("Google token verification failed: " ++ e)

/-- GoogleAuthService.extractUserInfo (picture omitted). -/
def extractUserInfo (p : GooglePayload) : UserInfo :=
  { userId := p.sub, email := p.email, name := p.name }

end Google

/-- The value of the Apple email_verified claim, which the source treats as
unknown: a boolean, a string, or absent (undefined). -/
inductive EmailVerifiedClaim where
  | boolVal (b : Bool)
  | strVal (s : String)
  | absent
  deriving Repr, DecidableEq

/-- AppleAuthService.isEmailVerified (server/dist/lib/apple.js lines 70 to
78): a boolean is taken as is, a string is lowercased and compared with the
string true, anything else (absent included) counts as verified. -/
def isEmailVerified : EmailVerifiedClaim → Bool
  | .boolVal b => b
  | .strVal s => jsToLower s == "true"
  | .absent => true

/-- The claims of an externally issued Apple identity token after the jose
checks. -/
structure ApplePayload where
  sub : String
  email : Option String
  email_verified : EmailVerifiedClaim
  deriving Repr, DecidableEq

namespace Apple

/-- The additional claim checks of AppleAuthService.verifyIdToken
(server/dist/lib/apple.js lines 28 to 33): a falsy sub is rejected, and a
truthy email whose email_verified claim does not normalize to true is
rejected. -/
def claimChecks (p : ApplePayload) : Except String ApplePayload :=
  if p.sub = "" then .error "Invalid token: missing subject"
  else if emailTruthy p.email && !(isEmailVerified p.email_verified) then
    .error "Email not verified"
  else .ok p

/-- AppleAuthService.verifyIdToken (server/dist/lib/apple.js lines 17 to
42), with the jose verification abstracted as joseVerify and errors from the
try block rethrown with the Apple token verification failed prefix. -/
def verifyIdToken (configured : Bool)
    (joseVerify : String → Except String ApplePayload)
    (idToken : String) : Except String ApplePayload :=
  if ¬ configured then .error "Apple Sign-In not configured"
  else
    match (match joseVerify idToken with
           | .error e => Except.error e
           | .ok p => claimChecks p) with
    | .ok p => .ok p
    | .error e => .error ("Apple token verification failed: " ++ e)

/-- AppleAuthService.extractUserInfo: email only included when truthy
(display name assembly omitted; no claim refers to it). -/
def extractUserInfo (p : ApplePayload) : UserInfo :=
  { userId := p.sub
    email := if emailTruthy p.email then p.email else none
    name := none }

end Apple

/-! ## Token Exchange Endpoint (routes/auth router.post exchange) -/

/-- The environment of the exchange endpoint: provider configuration flags,
the jose verifications for the two external issuers (abstracted), the server
JWT configuration, and the current time. -/
structure ExchangeEnv where
  googleConfigured : Bool
  appleConfigured : Bool
  googleJose : String → Except String GooglePayload
  appleJose : String → Except String ApplePayload
  jwtCfg : JWTConfig
  now : Nat

/-- The raw request body of POST /v1/auth/exchange before zod validation. -/
structure ExchangeBody where
  provider : Option String
  idToken : Option String

/-- The zod tokenExchangeSchema: provider is the enum google or apple, and
idToken is a string of length at least one. -/
def parseExchangeBody (b : ExchangeBody) : Option (String × String) :=
  match b.provider, b.idToken with
  | some p, some t =>
    if (p == "google" || p == "apple") && t != "" then some (p, t) else none
  | _, _ => none

/-- The stages of the exchange request state machine. -/
inductive ExchangeStage where
  | validating
  | checkingConfigured
  | verifyingExternal
  | minting
  | responding
  deriving Repr, DecidableEq

/-- The observable outcome of one exchange request: the stages traversed in
order, the HTTP status, the error code if any, and the success body fields
token, expiresIn and provider. -/
structure ExchangeOutcome where
  trace : List ExchangeStage
  status : Nat
  code : Option String
  token : Option SignedJWT
  expiresIn : Option Nat
  providerOut : Option String
  deriving Repr, DecidableEq

/-- The catch block of the exchange handler: an error whose message includes
verification failed or not configured yields 401 AUTH_FAILED, anything else
500 INTERNAL_ERROR. -/
def classifyExchangeError (msg : String) : Nat × String :=
  if strContains msg "verification failed" || strContains msg "not configured" then
    (401, "AUTH_FAILED")
  else (500, "INTERNAL_ERROR")

/-- The POST /v1/auth/exchange handler: validate the body shape, check the
named provider is configured, verify the external token, mint the server
access token at the current time, respond with token, expiresIn and
provider.  Every thrown error lands in the single catch block
classifyExchangeError; a zod failure responds 400 VALIDATION_ERROR. -/
def exchangeHandler (env : ExchangeEnv) (b : ExchangeBody) : ExchangeOutcome :=
  match parseExchangeBody b with
  | none =>
    { trace := [.validating], status := 400, code := some "VALIDATION_ERROR",
      token := none, expiresIn := none, providerOut := none }
  | some (provider, idToken) =>
    if provider = "google" then
      if ¬ env.googleConfigured then
        { trace := [.validating, .checkingConfigured], status := 400,
          code := some "GOOGLE_NOT_CONFIGURED",
          token := none, expiresIn := none, providerOut := none }
      else
        match Google.verifyIdToken env.googleConfigured env.googleJose idToken with
        | .error msg =>
          { trace := [.validating, .checkingConfigured, .verifyingExternal],
            status := (classifyExchangeError msg).1,
            code := some (classifyExchangeError msg).2,
            token := none, expiresIn := none, providerOut := none }
        | .ok p =>
          { trace := [.validating, .checkingConfigured, .verifyingExternal,
                      .minting, .responding],
            status := 200, code := none,
            token := some (signServerJWT env.jwtCfg
              (Google.extractUserInfo p).userId provider env.now),
            expiresIn := some env.jwtCfg.expiresIn,
            providerOut := some provider }
    else if provider = "apple" then
      if ¬ env.appleConfigured then
        { trace := [.validating, .checkingConfigured], status := 400,
          code := some "APPLE_NOT_CONFIGURED",
          token := none, expiresIn := none, providerOut := none }
      else
        match Apple.verifyIdToken env.appleConfigured env.appleJose idToken with
        | .error msg =>
          { trace := [.validating, .checkingConfigured, .verifyingExternal],
            status := (classifyExchangeError msg).1,
            code := some (classifyExchangeError msg).2,
            token := none, expiresIn := none, providerOut := none }
        | .ok p =>
          { trace := [.validating, .checkingConfigured, .verifyingExternal,
                      .minting, .responding],
            status := 200, code := none,
            token := some (signServerJWT env.jwtCfg
              (Apple.extractUserInfo p).userId provider env.now),
            expiresIn := some env.jwtCfg.expiresIn,
            providerOut := some provider }
    else
      { trace := [.validating], status := 400, code := some "UNSUPPORTED_PROVIDER",
        token := none, expiresIn := none, providerOut := none }

/-! ## AI Provider Abstraction and reply route (server/src/routes/ai.ts) -/

/-- The three AI providers.  The keyword local is spelled localAI. -/
inductive ProviderId where
  | openai
  | anthropic
  | localAI
  deriving Repr, DecidableEq

/-- The enablement flags of the three provider singletons, fixed at process
start from the environment (API keys and local base URL). -/
structure AIProvidersConfig where
  openaiConfigured : Bool
  anthropicConfigured : Bool
  localConfigured : Bool
  deriving Repr, DecidableEq

/-- isConfigured of each provider singleton. -/
def isConfigured (cfg : AIProvidersConfig) : ProviderId → Bool
  | .openai => cfg.openaiConfigured
  | .anthropic => cfg.anthropicConfigured
  | .localAI => cfg.localConfigured

/-- The error message thrown by each getResponse when its provider is not
configured (openai.js line 25, anthropic.js line 39, local.js line 43). -/
def notConfiguredMsg : ProviderId → String
  | .openai => "OpenAI not configured"
  | .anthropic => "Anthropic not configured"
  | .localAI => "Local AI provider not configured"

/-- A chat message: role and content. -/
structure Msg where
  role : String
  content : String
  deriving Repr, DecidableEq

/-- The zod messageSchema: role in the enum and non-empty content. -/
def validMsg (m : Msg) : Bool :=
  (m.role == "system" || m.role == "user" || m.role == "assistant") &&
    m.content != ""

/-- The raw request body of the AI reply routes before zod validation (the
stream flag is defaulted and never read by the handler logic). -/
structure AIRawBody where
  messages : Option (List Msg)
  provider : Option String

/-- The zod provider enum of aiRequestSchema. -/
def parseProviderName : String → Option ProviderId
  | "openai" => some .openai
  | "anthropic" => some .anthropic
  | "local" => some .localAI
  | _ => none

/-- The zod aiRequestSchema: at least one valid message, and the provider,
when present, drawn from the enum. -/
def parseAIBody (b : AIRawBody) : Option (List Msg × Option ProviderId) :=
  match b.messages with
  | none => none
  | some msgs =>
    if msgs.isEmpty then none
    else if !(msgs.all validMsg) then none
    else
      match b.provider with
      | none => some (msgs, none)
      | some s =>
        match parseProviderName s with
        | none => none
        | some p => some (msgs, some p)

/-- The concatenated user-role content of validateContentLength
(server/src/routes/ai.ts lines 28 to 37). -/
def totalUserContent (msgs : List Msg) : String :=
  String.join ((msgs.filter (fun m => m.role == "user")).map (fun m => m.content))

/-- validateContentLength: throws when the concatenated user content exceeds
MAX_LETTER_CHARS, otherwise returns without touching the messages. -/
def validateContentLength (maxChars : Nat) (msgs : List Msg) : Except String Unit :=
  if (totalUserContent msgs).length > maxChars then
    .error ("Letter content too long. Maximum " ++
      (toString maxChars ++ " characters allowed."))
  else .ok ()

/-- The fixed server-defined system prompt of addSystemPrompt
(server/src/routes/ai.ts lines 62 to 83). -/
def systemPromptText : String :=
  "You are a compassionate AI assistant helping someone process their thoughts and emotions through letter writing. The user has written a letter to someone (living or not), and you should respond thoughtfully and empathetically as if you\x27re that person or entity they\x27re writing to.\n\nGuidelines:\n- Be warm, understanding, and supportive\n- Acknowledge their feelings and experiences\n- Offer gentle insights or perspectives when appropriate\n- Keep responses conversational and heartfelt\n- If writing as someone who has passed away, be comforting and wise\n- If writing as a living person, be authentic to how they might respond\n- Keep responses to a reasonable length (1-3 paragraphs typically)\n\nRemember: This is a safe space for emotional expression and healing."

/-- addSystemPrompt: when no message has the system role, prepend the fixed
system prompt; otherwise return the messages unchanged. -/
def addSystemPrompt (msgs : List Msg) : List Msg :=
  if !(msgs.any (fun m => m.role == "system")) then
    { role := "system", content := systemPromptText } :: msgs
  else msgs

/-- getAIProvider (server/src/routes/ai.ts lines 42 to 57): an explicit name
returns that provider with no configuration check; otherwise the first
configured provider in the order OpenAI, Anthropic, Local, else a No AI
provider configured error. -/
def getAIProvider (cfg : AIProvidersConfig) (name : Option ProviderId) :
    Except String ProviderId :=
  match name with
  | some .openai => .ok .openai
  | some .anthropic => .ok .anthropic
  | some .localAI => .ok .localAI
  | none =>
    if cfg.openaiConfigured then .ok .openai
    else if cfg.anthropicConfigured then .ok .anthropic
    else if cfg.localConfigured then .ok .localAI
    else .error "No AI provider configured"

/-- Each getResponse first rejects when its provider is not configured, then
performs the upstream HTTP call, abstracted as the upstream argument. -/
def getResponse (cfg : AIProvidersConfig)
    (upstream : ProviderId → List Msg → Except String String)
    (p : ProviderId) (msgs : List Msg) : Except String String :=
  if !(isConfigured cfg p) then .error (notConfiguredMsg p)
  else upstream p msgs

/-- The provider label in the success response body, which is the requested
name or auto. -/
def providerLabel : Option ProviderId → String
  | none => "auto"
  | some .openai => "openai"
  | some .anthropic => "anthropic"
  | some .localAI => "local"

/-- The stages of the POST /v1/ai/reply handler (callProvider marks the call
of provider.getResponse, which itself refuses before any network request when
unconfigured). -/
inductive ReplyStep where
  | validateBody
  | checkLength
  | addSystem
  | selectProvider
  | callProvider
  | respond
  deriving Repr, DecidableEq

/-- The HTTP result of one reply request. -/
inductive ReplyResult where
  | ok (reply : String) (provider : String)
  | err (status : Nat) (code : String)
  deriving Repr, DecidableEq

/-- The observable outcome of one reply request: the steps traversed, the
result, and the upstream provider request if one was made (the provider and
the exact message list handed to it). -/
structure ReplyOutcome where
  trace : List ReplyStep
  result : ReplyResult
  providerCall : Option (ProviderId × List Msg)
  deriving Repr, DecidableEq

/-- The catch block of the reply handler (server/src/routes/ai.ts lines 119
to 159): a message including content too long gives 400 CONTENT_TOO_LONG, one
including not configured gives 503 SERVICE_UNAVAILABLE, anything else 500
AI_ERROR. -/
def classifyReplyError (msg : String) : ReplyResult :=
  if strContains msg "content too long" then .err 400 "CONTENT_TOO_LONG"
  else if strContains msg "not configured" then .err 503 "SERVICE_UNAVAILABLE"
  else .err 500 "AI_ERROR"

/-- The POST /v1/ai/reply handler (the stream variant shares the identical
prelude up to the provider call): validate the body, validate the content
length, add the system prompt if needed, select the provider, call it and
respond; every thrown error lands in the catch block classifyReplyError. -/
def replyHandler (cfg : AIProvidersConfig) (maxChars : Nat)
    (upstream : ProviderId → List Msg → Except String String)
    (body : AIRawBody) : ReplyOutcome :=
  match parseAIBody body with
  | none =>
    { trace := [.validateBody], result := .err 400 "VALIDATION_ERROR",
      providerCall := none }
  | some (messages, requestedProvider) =>
    match validateContentLength maxChars messages with
    | .error msg =>
      { trace := [.validateBody, .checkLength],
        result := classifyReplyError msg, providerCall := none }
    | .ok _ =>
      let messagesWithSystem := addSystemPrompt messages
      match getAIProvider cfg requestedProvider with
      | .error msg =>
        { trace := [.validateBody, .checkLength, .addSystem, .selectProvider],
          result := classifyReplyError msg, providerCall := none }
      | .ok p =>
        match getResponse cfg upstream p messagesWithSystem with
        | .error msg =>
          { trace := [.validateBody, .checkLength, .addSystem, .selectProvider,
                      .callProvider],
            result := classifyReplyError msg,
            providerCall :=
              if isConfigured cfg p then some (p, messagesWithSystem) else none }
        | .ok text =>
          { trace := [.validateBody, .checkLength, .addSystem, .selectProvider,
                      .callProvider, .respond],
            result := .ok text (providerLabel requestedProvider),
            providerCall := some (p, messagesWithSystem) }

/-! ## Anthropic message conversion (server/dist/providers/anthropic.js) -/

/-- The Anthropic request payload shape built by convertMessages: an optional
top-level system field and the conversation messages. -/
structure AnthropicPayload where
  system : Option String
  messages : List Msg
  deriving Repr, DecidableEq

/-- convertMessages (server/dist/providers/anthropic.js lines 21 to 36): the
first system-role message is looked up, all system-role messages are filtered
out of the conversation, and the system field is set only when the first
system message has truthy content. -/
def convertMessages (msgs : List Msg) : AnthropicPayload :=
  { system :=
      match msgs.find? (fun m => m.role == "system") with
      | some m => if m.content != "" then some m.content else none
      | none => none
    messages := msgs.filter (fun m => m.role != "system") }

/-! ## Streaming Relay (server/dist/providers/openai.js streamResponse,
server/dist/providers/local.js streamOllamaResponse)

The upstream stream is modelled as a list of text chunks (character lists:
Buffer.toString is the identity on character-aligned chunks), delivered to
the data handler in order, followed by one end event.  The outward response
records the delivered events; in Node a write after end delivers nothing, and
a second end is a no-op. -/

/-- Claim C1: access-token round trip.  For every configuration and every
pair (sub, provider), verifying the token produced by signing that pair with
the same configuration yields a claims payload whose sub and provider equal
the signed ones, as long as now is at most exp = signing time + expiresIn;
once now exceeds exp, verification fails with an Invalid JWT (InvalidToken)
error. -/
theorem c1_access_token_round_trip
    (cfg : JWTConfig) (sub provider : String) (t now : Nat) :
    (now ≤ t + cfg.expiresIn →
      verifyServerJWT cfg (signServerJWT cfg sub provider t) now =
        .ok (signServerJWT cfg sub provider t).claims ∧
      (signServerJWT cfg sub provider t).claims.sub = sub ∧
      (signServerJWT cfg sub provider t).claims.provider = provider ∧
      (signServerJWT cfg sub provider t).claims.exp = t + cfg.expiresIn) ∧
    (now > t + cfg.expiresIn →
      verifyServerJWT cfg (signServerJWT cfg sub provider t) now =
        .error ("Invalid JWT: " ++ "exp claim timestamp check failed")) := by
  constructor
  · intro h
    refine ⟨?_, rfl, rfl, rfl⟩
    simp [verifyServerJWT, jwtVerify, signServerJWT, Nat.not_lt.mpr h]
  · intro h
    simp [verifyServerJWT, jwtVerify, signServerJWT, h]

/-- Witness for C1 at a concrete configuration and times on both sides of the
expiry boundary. -/
theorem c1_access_token_round_trip_witness :
    (10 ≤ 0 + 3600 ∧
      verifyServerJWT ⟨7, "iss", "aud", 3600⟩
        (signServerJWT ⟨7, "iss", "aud", 3600⟩ "user-1" "google" 0) 10 =
        .ok (signServerJWT ⟨7, "iss", "aud", 3600⟩ "user-1" "google" 0).claims) ∧
    (3601 > 0 + 3600 ∧
      verifyServerJWT ⟨7, "iss", "aud", 3600⟩
        (signServerJWT ⟨7, "iss", "aud", 3600⟩ "user-1" "google" 0) 3601 =
        .error ("Invalid JWT: " ++ "exp claim timestamp check failed")) := by
  refine ⟨⟨by decide, ?_⟩, ⟨by decide, ?_⟩⟩
  · exact ((c1_access_token_round_trip ⟨7, "iss", "aud", 3600⟩ "user-1" "google" 0 10).1
      (by decide)).1
  · exact (c1_access_token_round_trip ⟨7, "iss", "aud", 3600⟩ "user-1" "google" 0 3601).2
      (by decide)

/-- Claim C4: the required authentication gate.  Absent header rejects 401
MISSING_AUTH_HEADER; a header not starting with the bearer scheme rejects 401
INVALID_AUTH_FORMAT; an empty token rejects 401 MISSING_TOKEN; a verification
failure (expiry included, since verify is arbitrary) rejects 401
INVALID_TOKEN; only on successful verification is the identity (userId,
provider) attached and the request let through. -/
theorem c4_auth_required_gate (verify : String → Except String JWTClaims) :
    authRequired verify none = .reject 401 "MISSING_AUTH_HEADER" ∧
    (∀ h : String, h ≠ "" → jsStartsWith h "Bearer " = false →
      authRequired verify (some h) = .reject 401 "INVALID_AUTH_FORMAT") ∧
    authRequired verify (some "Bearer ") = .reject 401 "MISSING_TOKEN" ∧
    (∀ h e, jsStartsWith h "Bearer " = true → jsDrop h 7 ≠ "" →
      verify (jsDrop h 7) = .error e →
      authRequired verify (some h) = .reject 401 "INVALID_TOKEN") ∧
    (∀ h p, jsStartsWith h "Bearer " = true → jsDrop h 7 ≠ "" →
      verify (jsDrop h 7) = .ok p →
      authRequired verify (some h) = .accept p.sub p.provider) := by
  have hbe : ("Bearer " : String) ≠ "" := by decide
  have hbs : jsStartsWith "Bearer " "Bearer " = true := by decide
  have hbd : jsDrop "Bearer " 7 = "" := by decide
  refine ⟨rfl, ?_, ?_, ?_, ?_⟩
  · intro h h1 h2
    simp [authRequired, h1, h2]
  · simp [authRequired, hbe, hbs, hbd]
  · intro h e hs hne hv
    have h0 : h ≠ "" := by
      intro he
      rw [he] at hs
      exact absurd hs (by decide)
    simp [authRequired, h0, hs, hne, hv]
  · intro h p hs hne hv
    have h0 : h ≠ "" := by
      intro he
      rw [he] at hs
      exact absurd hs (by decide)
    simp [authRequired, h0, hs, hne, hv, extractUserContext]

/-- Witness for C4 at concrete headers and a concrete verifier. -/
theorem c4_auth_required_gate_witness :
    (("Basic x" : String) ≠ "" ∧ jsStartsWith "Basic x" "Bearer " = false ∧
      authRequired (fun _ => .error "Invalid JWT: bad") (some "Basic x") =
        .reject 401 "INVALID_AUTH_FORMAT") ∧
    (jsStartsWith "Bearer tok" "Bearer " = true ∧
      jsDrop "Bearer tok" 7 ≠ "" ∧
      authRequired (fun _ => .error "Invalid JWT: bad") (some "Bearer tok") =
        .reject 401 "INVALID_TOKEN") ∧
    (authRequired (fun _ => .ok ⟨"u1", "google", 0, 3600, "i", "a"⟩)
        (some "Bearer tok") = .accept "u1" "google") := by
  refine ⟨⟨by decide, by decide, ?_⟩, ⟨by decide, by decide, ?_⟩, ?_⟩
  · exact (c4_auth_required_gate (fun _ => .error "Invalid JWT: bad")).2.1
      "Basic x" (by decide) (by decide)
  · exact (c4_auth_required_gate (fun _ => .error "Invalid JWT: bad")).2.2.2.1
      "Bearer tok" "Invalid JWT: bad" (by decide) (by decide) rfl
  · exact (c4_auth_required_gate (fun _ => .ok ⟨"u1", "google", 0, 3600, "i", "a"⟩)).2.2.2.2
      "Bearer tok" ⟨"u1", "google", 0, 3600, "i", "a"⟩ (by decide) (by decide) rfl

/-- Claim C3: the token exchange success path.  For a body passing shape
validation naming a configured provider whose external token verifies, the
handler traverses validate, check configured, verify external, mint, respond,
each stage exactly once, and responds 200 with token, expiresIn and provider,
the minted sub equal to the external subject claim. -/
theorem c3_exchange_success_path (env : ExchangeEnv) (b : ExchangeBody)
    (idToken : String) :
    (∀ p : GooglePayload, parseExchangeBody b = some ("google", idToken) →
      env.googleConfigured = true →
      Google.verifyIdToken env.googleConfigured env.googleJose idToken = .ok p →
      exchangeHandler env b =
        { trace := [.validating, .checkingConfigured, .verifyingExternal,
                    .minting, .responding],
          status := 200, code := none,
          token := some (signServerJWT env.jwtCfg p.sub "google" env.now),
          expiresIn := some env.jwtCfg.expiresIn,
          providerOut := some "google" } ∧
      (signServerJWT env.jwtCfg p.sub "google" env.now).claims.sub = p.sub) ∧
    (∀ p : ApplePayload, parseExchangeBody b = some ("apple", idToken) →
      env.appleConfigured = true →
      Apple.verifyIdToken env.appleConfigured env.appleJose idToken = .ok p →
      exchangeHandler env b =
        { trace := [.validating, .checkingConfigured, .verifyingExternal,
                    .minting, .responding],
          status := 200, code := none,
          token := some (signServerJWT env.jwtCfg p.sub "apple" env.now),
          expiresIn := some env.jwtCfg.expiresIn,
          providerOut := some "apple" } ∧
      (signServerJWT env.jwtCfg p.sub "apple" env.now).claims.sub = p.sub) := by
  constructor
  · intro p hparse hconf hver
    refine ⟨?_, rfl⟩
    rw [hconf] at hver
    simp [exchangeHandler, hparse, hconf, hver, Google.extractUserInfo]
  · intro p hparse hconf hver
    refine ⟨?_, rfl⟩
    rw [hconf] at hver
    simp [exchangeHandler, hparse, hconf, hver, Apple.extractUserInfo]

/-- Witness for C3 at a concrete environment, body and payloads for both
providers. -/
theorem c3_exchange_success_path_witness :
    (parseExchangeBody ⟨some "google", some "tok"⟩ = some ("google", "tok") ∧
      exchangeHandler
        { googleConfigured := true, appleConfigured := true,
          googleJose := fun _ => .ok ⟨"guser", some "g@x", some true, none⟩,
          appleJose := fun _ => .ok ⟨"auser", some "a@x", .boolVal true⟩,
          jwtCfg := ⟨7, "iss", "aud", 3600⟩, now := 0 }
        ⟨some "google", some "tok"⟩ =
        { trace := [.validating, .checkingConfigured, .verifyingExternal,
                    .minting, .responding],
          status := 200, code := none,
          token := some (signServerJWT ⟨7, "iss", "aud", 3600⟩ "guser" "google" 0),
          expiresIn := some 3600,
          providerOut := some "google" }) ∧
    (parseExchangeBody ⟨some "apple", some "tok"⟩ = some ("apple", "tok") ∧
      exchangeHandler
        { googleConfigured := true, appleConfigured := true,
          googleJose := fun _ => .ok ⟨"guser", some "g@x", some true, none⟩,
          appleJose := fun _ => .ok ⟨"auser", some "a@x", .boolVal true⟩,
          jwtCfg := ⟨7, "iss", "aud", 3600⟩, now := 0 }
        ⟨some "apple", some "tok"⟩ =
        { trace := [.validating, .checkingConfigured, .verifyingExternal,
                    .minting, .responding],
          status := 200, code := none,
          token := some (signServerJWT ⟨7, "iss", "aud", 3600⟩ "auser" "apple" 0),
          expiresIn := some 3600,
          providerOut := some "apple" }) := by
  refine ⟨⟨by decide, ?_⟩, ⟨by decide, ?_⟩⟩
  · exact ((c3_exchange_success_path
      { googleConfigured := true, appleConfigured := true,
        googleJose := fun _ => .ok ⟨"guser", some "g@x", some true, none⟩,
        appleJose := fun _ => .ok ⟨"auser", some "a@x", .boolVal true⟩,
        jwtCfg := ⟨7, "iss", "aud", 3600⟩, now := 0 }
      ⟨some "google", some "tok"⟩ "tok").1
      ⟨"guser", some "g@x", some true, none⟩ (by decide) rfl rfl).1
  · exact ((c3_exchange_success_path
      { googleConfigured := true, appleConfigured := true,
        googleJose := fun _ => .ok ⟨"guser", some "g@x", some true, none⟩,
        appleJose := fun _ => .ok ⟨"auser", some "a@x", .boolVal true⟩,
        jwtCfg := ⟨7, "iss", "aud", 3600⟩, now := 0 }
      ⟨some "apple", some "tok"⟩ "tok").2
      ⟨"auser", some "a@x", .boolVal true⟩ (by decide) rfl rfl).1

theorem isPrefixOf_append_right (p l m : List Char) (h : p.isPrefixOf l = true) :
    p.isPrefixOf (l ++ m) = true := by
  rw [List.isPrefixOf_iff_prefix] at h ⊢
  exact h.trans (List.prefix_append l m)

theorem containsSub_append_left (pat a b : List Char)
    (h : containsSub pat a = true) : containsSub pat (a ++ b) = true := by
  induction a with
  | nil =>
    have hp : pat = [] := by simpa [containsSub, List.isEmpty_iff] using h
    subst hp
    cases b with
    | nil => simp [containsSub]
    | cons x xs => simp [containsSub, List.isPrefixOf]
  | cons x a' ih =>
    simp only [containsSub, Bool.or_eq_true] at h
    rcases h with hp | hc
    · have hx := isPrefixOf_append_right pat (x :: a') b hp
      simp only [List.cons_append] at hx
      simp [containsSub, hx]
    · simp [containsSub, ih hc]

theorem strContains_append_left (s t pat : String)
    (h : strContains s pat = true) : strContains (s ++ t) pat = true := by
  unfold strContains at h ⊢
  rw [String.data_append]
  exact containsSub_append_left _ _ _ h

/-- Claim C5: Google identity verification rejects unverified email.  A
successful Google verification guarantees a non-empty subject and a true
email_verified claim (so the output identity never carries an unverified
email), and a payload passing the jose checks but carrying
email_verified = false makes the exchange endpoint respond 401
AUTH_FAILED. -/
theorem c5_google_rejects_unverified_email :
    (∀ (conf : Bool) (jose : String → Except String GooglePayload)
       (tok : String) (p : GooglePayload),
      Google.verifyIdToken conf jose tok = .ok p →
      p.sub ≠ "" ∧ p.email_verified = some true ∧
      (∀ e, (Google.extractUserInfo p).email = some e →
        p.email_verified = some true)) ∧
    (∀ (env : ExchangeEnv) (b : ExchangeBody) (idToken : String)
       (pay : GooglePayload) (e : String),
      parseExchangeBody b = some ("google", idToken) →
      env.googleConfigured = true →
      env.googleJose idToken = .ok pay →
      pay.email = some e → pay.email_verified = some false →
      (exchangeHandler env b).status = 401 ∧
      (exchangeHandler env b).code = some "AUTH_FAILED") := by
  constructor
  · intro conf jose tok p h
    cases conf with
    | false => simp [Google.verifyIdToken] at h
    | true =>
      simp only [Google.verifyIdToken, Bool.not_true, Bool.false_eq_true,
        if_false, ite_false] at h
      cases hj : jose tok with
      | error e => rw [hj] at h; simp at h
      | ok p0 =>
        rw [hj] at h
        simp only [Google.claimChecks] at h
        by_cases hs : p0.sub = ""
        · simp [hs] at h
        · by_cases he : p0.email_verified = some true
          · simp only [hs, he, ite_false, if_neg, ne_eq, not_true_eq_false,
              Except.ok.injEq, if_false] at h
            have hp : p0 = p := by
              by_contra hne
              simp [hs, he, hne] at h
            subst hp
            exact ⟨hs, he, fun e _ => he⟩
          · simp [hs, he] at h
  · intro env b idToken pay e hparse hconf hjose hemail hver
    have hcls : ∀ m : String,
        classifyExchangeError ("Google token verification failed: " ++ m) =
          (401, "AUTH_FAILED") := by
      intro m
      have h1 : strContains ("Google token verification failed: " ++ m)
          "verification failed" = true :=
        strContains_append_left "Google token verification failed: " m
          "verification failed" (by decide)
      simp [classifyExchangeError, h1]
    obtain ⟨m, hm⟩ : ∃ m,
        Google.verifyIdToken env.googleConfigured env.googleJose idToken =
          .error ("Google token verification failed: " ++ m) := by
      rw [hconf]
      by_cases hs : pay.sub = ""
      · exact ⟨"Invalid token: missing subject",
          by simp [Google.verifyIdToken, hjose, Google.claimChecks, hs]⟩
      · exact ⟨"Email not verified",
          by simp [Google.verifyIdToken, hjose, Google.claimChecks, hs, hver]⟩
    rw [hconf] at hm
    constructor <;> simp [exchangeHandler, hparse, hconf, hm, hcls m]

/-- Witness for C5 at a concrete verifier and a concrete exchange
environment whose payload carries email_verified = false. -/
theorem c5_google_rejects_unverified_email_witness :
    (Google.verifyIdToken true (fun _ => .ok ⟨"guser", some "g@x", some true, none⟩)
        "t" = .ok ⟨"guser", some "g@x", some true, none⟩ ∧
      ("guser" : String) ≠ "" ∧
      (⟨"guser", some "g@x", some true, none⟩ : GooglePayload).email_verified =
        some true) ∧
    (parseExchangeBody ⟨some "google", some "t"⟩ = some ("google", "t") ∧
      (exchangeHandler
        { googleConfigured := true, appleConfigured := false,
          googleJose := fun _ => .ok ⟨"guser", some "g@x", some false, none⟩,
          appleJose := fun _ => .error "unused",
          jwtCfg := ⟨7, "iss", "aud", 3600⟩, now := 0 }
        ⟨some "google", some "t"⟩).status = 401 ∧
      (exchangeHandler
        { googleConfigured := true, appleConfigured := false,
          googleJose := fun _ => .ok ⟨"guser", some "g@x", some false, none⟩,
          appleJose := fun _ => .error "unused",
          jwtCfg := ⟨7, "iss", "aud", 3600⟩, now := 0 }
        ⟨some "google", some "t"⟩).code = some "AUTH_FAILED") := by
  refine ⟨⟨rfl, ?_, rfl⟩, ⟨by decide, ?_⟩⟩
  · exact ((c5_google_rejects_unverified_email).1 true
      (fun _ => .ok ⟨"guser", some "g@x", some true, none⟩) "t"
      ⟨"guser", some "g@x", some true, none⟩ rfl).1
  · exact (c5_google_rejects_unverified_email).2
      { googleConfigured := true, appleConfigured := false,
        googleJose := fun _ => .ok ⟨"guser", some "g@x", some false, none⟩,
        appleJose := fun _ => .error "unused",
        jwtCfg := ⟨7, "iss", "aud", 3600⟩, now := 0 }
      ⟨some "google", some "t"⟩ "t" ⟨"guser", some "g@x", some false, none⟩
      "g@x" (by decide) rfl rfl rfl rfl

/-- Claim C8: Apple email_verified normalization.  A boolean claim is taken
as is; the strings true and false, case-insensitively (the source lowercases
before comparing), normalize to the corresponding boolean; an absent claim is
treated as verified; and an Apple verification that succeeds on a payload
carrying a truthy email claim implies the email_verified claim normalized to
true. -/
theorem c8_apple_email_verified_normalization :
    (∀ b, isEmailVerified (.boolVal b) = b) ∧
    (∀ s, jsToLower s = "true" → isEmailVerified (.strVal s) = true) ∧
    (∀ s, jsToLower s = "false" → isEmailVerified (.strVal s) = false) ∧
    isEmailVerified .absent = true ∧
    (∀ (conf : Bool) (jose : String → Except String ApplePayload)
       (tok : String) (p : ApplePayload) (e : String),
      Apple.verifyIdToken conf jose tok = .ok p →
      p.email = some e → e ≠ "" →
      isEmailVerified p.email_verified = true) := by
  refine ⟨fun b => rfl, ?_, ?_, rfl, ?_⟩
  · intro s h
    simp only [isEmailVerified, h]
    decide
  · intro s h
    simp only [isEmailVerified, h]
    decide
  · intro conf jose tok p e h hemail hee
    cases conf with
    | false => simp [Apple.verifyIdToken] at h
    | true =>
      simp only [Apple.verifyIdToken, Bool.not_true, Bool.false_eq_true,
        if_false, ite_false] at h
      cases hj : jose tok with
      | error m => rw [hj] at h; simp at h
      | ok p0 =>
        rw [hj] at h
        simp only [Apple.claimChecks] at h
        by_cases hs : p0.sub = ""
        · simp [hs] at h
        · by_cases hv : isEmailVerified p0.email_verified = true
          · have hp : p0 = p := by
              simp [hs, hv] at h
              exact h
            subst hp
            exact hv
          · by_cases ht : emailTruthy p0.email = true
            · simp [hs, hv, ht, Bool.not_eq_true] at h
            · have hp : p0 = p := by
                simp [hs, hv, ht, Bool.not_eq_true] at h
                exact h
              subst hp
              rw [hemail] at ht
              exact absurd (by simpa [emailTruthy] using hee) ht

/-- Witness for C8 at concrete claim values and a concrete Apple
verification. -/
theorem c8_apple_email_verified_normalization_witness :
    (jsToLower "TRUE" = "true" ∧ isEmailVerified (.strVal "TRUE") = true) ∧
    (jsToLower "False" = "false" ∧ isEmailVerified (.strVal "False") = false) ∧
    (Apple.verifyIdToken true (fun _ => .ok ⟨"auser", some "a@x", .strVal "TRUE"⟩)
        "t" = .ok ⟨"auser", some "a@x", .strVal "TRUE"⟩ ∧
      ("a@x" : String) ≠ "" ∧
      isEmailVerified (⟨"auser", some "a@x", .strVal "TRUE"⟩ : ApplePayload).email_verified =
        true) := by
  refine ⟨⟨by decide, ?_⟩, ⟨by decide, ?_⟩, ⟨rfl, by decide, ?_⟩⟩
  · exact (c8_apple_email_verified_normalization).2.1 "TRUE" (by decide)
  · exact (c8_apple_email_verified_normalization).2.2.1 "False" (by decide)
  · exact (c8_apple_email_verified_normalization).2.2.2.2 true
      (fun _ => .ok ⟨"auser", some "a@x", .strVal "TRUE"⟩) "t"
      ⟨"auser", some "a@x", .strVal "TRUE"⟩ "a@x" rfl rfl (by decide)

/-- Claim C6: provider selection.  With no provider named, the first
configured provider in the order OpenAI, Anthropic, Local is used, failing
when none is configured; an explicit provider bypasses the priority order but
the request still fails with 503 SERVICE_UNAVAILABLE when that provider is
not configured, with no upstream request made. -/
theorem c6_explicit_provider_unconfigured (cfg : AIProvidersConfig) :
    (cfg.openaiConfigured = true → getAIProvider cfg none = .ok .openai) ∧
    (cfg.openaiConfigured = false → cfg.anthropicConfigured = true →
      getAIProvider cfg none = .ok .anthropic) ∧
    (cfg.openaiConfigured = false → cfg.anthropicConfigured = false →
      cfg.localConfigured = true → getAIProvider cfg none = .ok .localAI) ∧
    (cfg.openaiConfigured = false → cfg.anthropicConfigured = false →
      cfg.localConfigured = false →
      getAIProvider cfg none = .error "No AI provider configured") ∧
    (∀ p, getAIProvider cfg (some p) = .ok p) ∧
    (∀ (maxChars : Nat) (upstream : ProviderId → List Msg → Except String String)
       (body : AIRawBody) (msgs : List Msg) (p : ProviderId),
      parseAIBody body = some (msgs, some p) →
      validateContentLength maxChars msgs = .ok () →
      isConfigured cfg p = false →
      (replyHandler cfg maxChars upstream body).result =
        .err 503 "SERVICE_UNAVAILABLE" ∧
      (replyHandler cfg maxChars upstream body).providerCall = none) := by
  refine ⟨?_, ?_, ?_, ?_, ?_, ?_⟩
  · intro h1
    simp [getAIProvider, h1]
  · intro h1 h2
    simp [getAIProvider, h1, h2]
  · intro h1 h2 h3
    simp [getAIProvider, h1, h2, h3]
  · intro h1 h2 h3
    simp [getAIProvider, h1, h2, h3]
  · intro p
    cases p <;> rfl
  · intro maxChars upstream body msgs p hparse hlen hconf
    have hget : getAIProvider cfg (some p) = .ok p := by cases p <;> rfl
    have hcls : classifyReplyError (notConfiguredMsg p) =
        .err 503 "SERVICE_UNAVAILABLE" := by
      cases p <;> decide
    constructor <;>
      simp [replyHandler, hparse, hlen, hget, getResponse, hconf, hcls]

/-- Witness for C6 at a concrete configuration where only OpenAI is enabled
and the request names the local provider explicitly. -/
theorem c6_explicit_provider_unconfigured_witness :
    ((⟨true, false, false⟩ : AIProvidersConfig).openaiConfigured = true ∧
      getAIProvider ⟨true, false, false⟩ none = .ok .openai) ∧
    (getAIProvider ⟨true, false, false⟩ (some .localAI) = .ok .localAI) ∧
    (parseAIBody ⟨some [⟨"user", "hello"⟩], some "local"⟩ =
        some ([⟨"user", "hello"⟩], some .localAI) ∧
      validateContentLength 6000 [⟨"user", "hello"⟩] = .ok () ∧
      isConfigured ⟨true, false, false⟩ .localAI = false ∧
      (replyHandler ⟨true, false, false⟩ 6000 (fun _ _ => .ok "reply")
        ⟨some [⟨"user", "hello"⟩], some "local"⟩).result =
        .err 503 "SERVICE_UNAVAILABLE" ∧
      (replyHandler ⟨true, false, false⟩ 6000 (fun _ _ => .ok "reply")
        ⟨some [⟨"user", "hello"⟩], some "local"⟩).providerCall = none) := by
  refine ⟨⟨rfl, ?_⟩, ?_, by decide, rfl, rfl, ?_, ?_⟩
  · exact (c6_explicit_provider_unconfigured ⟨true, false, false⟩).1 rfl
  · exact (c6_explicit_provider_unconfigured ⟨true, false, false⟩).2.2.2.2.1 .localAI
  · exact ((c6_explicit_provider_unconfigured ⟨true, false, false⟩).2.2.2.2.2
      6000 (fun _ _ => .ok "reply") ⟨some [⟨"user", "hello"⟩], some "local"⟩
      [⟨"user", "hello"⟩] .localAI (by decide) rfl rfl).1
  · exact ((c6_explicit_provider_unconfigured ⟨true, false, false⟩).2.2.2.2.2
      6000 (fun _ _ => .ok "reply") ⟨some [⟨"user", "hello"⟩], some "local"⟩
      [⟨"user", "hello"⟩] .localAI (by decide) rfl rfl).2

/-- Claim C7: the content ceiling is enforced before any provider activity.
When the concatenated user content exceeds the ceiling the reply handler
stops after the length check with 400 CONTENT_TOO_LONG, selecting no provider
and making no upstream request; at or under the ceiling the check passes. -/
theorem c7_content_ceiling_before_provider :
    (∀ (cfg : AIProvidersConfig) (maxChars : Nat)
       (upstream : ProviderId → List Msg → Except String String)
       (body : AIRawBody) (msgs : List Msg) (reqP : Option ProviderId),
      parseAIBody body = some (msgs, reqP) →
      (totalUserContent msgs).length > maxChars →
      (replyHandler cfg maxChars upstream body).result =
        .err 400 "CONTENT_TOO_LONG" ∧
      (replyHandler cfg maxChars upstream body).trace =
        [.validateBody, .checkLength] ∧
      ReplyStep.selectProvider ∉ (replyHandler cfg maxChars upstream body).trace ∧
      ReplyStep.callProvider ∉ (replyHandler cfg maxChars upstream body).trace ∧
      (replyHandler cfg maxChars upstream body).providerCall = none) ∧
    (∀ (maxChars : Nat) (msgs : List Msg),
      (totalUserContent msgs).length ≤ maxChars →
      validateContentLength maxChars msgs = .ok ()) := by
  constructor
  · intro cfg maxChars upstream body msgs reqP hparse hgt
    have herr : validateContentLength maxChars msgs =
        .error ("Letter content too long. Maximum " ++
          (toString maxChars ++ " characters allowed.")) := by
      simp [validateContentLength, hgt]
    have h1 : strContains ("Letter content too long. Maximum " ++
        (toString maxChars ++ " characters allowed.")) "content too long" = true :=
      strContains_append_left "Letter content too long. Maximum "
        (toString maxChars ++ " characters allowed.") "content too long" (by decide)
    have hcls : classifyReplyError ("Letter content too long. Maximum " ++
        (toString maxChars ++ " characters allowed.")) =
        .err 400 "CONTENT_TOO_LONG" := by
      simp [classifyReplyError, h1]
    refine ⟨?_, ?_, ?_, ?_, ?_⟩ <;>
      simp [replyHandler, hparse, herr, hcls]
  · intro maxChars msgs hle
    simp [validateContentLength, Nat.not_lt.mpr hle]

/-- Witness for C7 at a concrete over-limit and a concrete under-limit
message list. -/
theorem c7_content_ceiling_before_provider_witness :
    (parseAIBody ⟨some [⟨"user", "abcd"⟩], none⟩ =
        some ([⟨"user", "abcd"⟩], none) ∧
      (totalUserContent [⟨"user", "abcd"⟩]).length > 3 ∧
      (replyHandler ⟨true, true, true⟩ 3 (fun _ _ => .ok "reply")
        ⟨some [⟨"user", "abcd"⟩], none⟩).result = .err 400 "CONTENT_TOO_LONG" ∧
      (replyHandler ⟨true, true, true⟩ 3 (fun _ _ => .ok "reply")
        ⟨some [⟨"user", "abcd"⟩], none⟩).providerCall = none) ∧
    ((totalUserContent [⟨"user", "abcd"⟩]).length ≤ 4 ∧
      validateContentLength 4 [⟨"user", "abcd"⟩] = .ok ()) := by
  refine ⟨⟨by decide, by decide, ?_, ?_⟩, ⟨by decide, ?_⟩⟩
  · exact ((c7_content_ceiling_before_provider).1 ⟨true, true, true⟩ 3
      (fun _ _ => .ok "reply") ⟨some [⟨"user", "abcd"⟩], none⟩
      [⟨"user", "abcd"⟩] none (by decide) (by decide)).1
  · exact ((c7_content_ceiling_before_provider).1 ⟨true, true, true⟩ 3
      (fun _ _ => .ok "reply") ⟨some [⟨"user", "abcd"⟩], none⟩
      [⟨"user", "abcd"⟩] none (by decide) (by decide)).2.2.2.2
  · exact (c7_content_ceiling_before_provider).2 4 [⟨"user", "abcd"⟩] (by decide)

/-- Counterexample for C9 as stated: with two system messages followed by a
user message, the second system message is not forwarded as an ordinary
conversation turn; the conversation handed to Anthropic contains only the
user message, so remaining system messages are dropped, not kept. -/
theorem c9_counterexample :
    (convertMessages [⟨"system", "a"⟩, ⟨"system", "b"⟩, ⟨"user", "c"⟩]).system =
      some "a" ∧
    (convertMessages [⟨"system", "a"⟩, ⟨"system", "b"⟩, ⟨"user", "c"⟩]).messages =
      [⟨"user", "c"⟩] ∧
    (⟨"system", "b"⟩ : Msg) ∉
      (convertMessages [⟨"system", "a"⟩, ⟨"system", "b"⟩, ⟨"user", "c"⟩]).messages := by
  refine ⟨rfl, rfl, ?_⟩
  decide

/-- Claim C9 as amended: the first system message with truthy content is
promoted into the top-level system field; every system-role message is
removed from the conversation (any beyond the first is dropped entirely, not
forwarded as an ordinary turn); all non-system messages are forwarded in
their original order. -/
theorem c9_system_message_translation_amended :
    (∀ (msgs : List Msg) (m : Msg),
      msgs.find? (fun x => x.role == "system") = some m → m.content ≠ "" →
      (convertMessages msgs).system = some m.content) ∧
    (∀ msgs : List Msg, msgs.find? (fun x => x.role == "system") = none →
      (convertMessages msgs).system = none) ∧
    (∀ msgs : List Msg,
      (convertMessages msgs).messages =
        msgs.filter (fun m => m.role != "system")) ∧
    (∀ (msgs : List Msg) (m : Msg), m.role = "system" →
      m ∉ (convertMessages msgs).messages) := by
  refine ⟨?_, ?_, fun msgs => rfl, ?_⟩
  · intro msgs m hf hc
    simp [convertMessages, hf, hc]
  · intro msgs hf
    simp [convertMessages, hf]
  · intro msgs m hrole hmem
    simp only [convertMessages, List.mem_filter] at hmem
    rw [hrole] at hmem
    simp at hmem

/-- Witness for the amended C9 at a concrete message list. -/
theorem c9_system_message_translation_amended_witness :
    ([⟨"system", "a"⟩, ⟨"user", "c"⟩] : List Msg).find?
        (fun x => x.role == "system") = some ⟨"system", "a"⟩ ∧
    ("a" : String) ≠ "" ∧
    (convertMessages [⟨"system", "a"⟩, ⟨"user", "c"⟩]).system = some "a" ∧
    (("system" : String) = "system" ∧
      (⟨"system", "x"⟩ : Msg) ∉
        (convertMessages [⟨"system", "a"⟩, ⟨"user", "c"⟩]).messages) := by
  refine ⟨by decide, by decide, ?_, rfl, ?_⟩
  · exact (c9_system_message_translation_amended).1
      [⟨"system", "a"⟩, ⟨"user", "c"⟩] ⟨"system", "a"⟩ (by decide) (by decide)
  · exact (c9_system_message_translation_amended).2.2.2
      [⟨"system", "a"⟩, ⟨"user", "c"⟩] ⟨"system", "x"⟩ rfl

/-- Claim C10: silent default system prompt injection.  When no message has
the system role, the list handed to the provider is the original list with
exactly the fixed server system message prepended; when a system message is
already present the list is passed unchanged; and whatever message list the
reply handler hands to the selected provider is exactly addSystemPrompt of
the validated messages. -/
theorem c10_default_system_prompt :
    (∀ msgs : List Msg, msgs.any (fun m => m.role == "system") = false →
      addSystemPrompt msgs = ⟨"system", systemPromptText⟩ :: msgs) ∧
    (∀ msgs : List Msg, msgs.any (fun m => m.role == "system") = true →
      addSystemPrompt msgs = msgs) ∧
    (∀ (cfg : AIProvidersConfig) (maxChars : Nat)
       (upstream : ProviderId → List Msg → Except String String)
       (body : AIRawBody) (msgs : List Msg) (reqP : Option ProviderId)
       (p : ProviderId) (ms : List Msg),
      parseAIBody body = some (msgs, reqP) →
      (replyHandler cfg maxChars upstream body).providerCall = some (p, ms) →
      ms = addSystemPrompt msgs) := by
  refine ⟨?_, ?_, ?_⟩
  · intro msgs h
    simp [addSystemPrompt, h]
  · intro msgs h
    simp [addSystemPrompt, h]
  · intro cfg maxChars upstream body msgs reqP p ms hparse hcall
    simp only [replyHandler, hparse] at hcall
    cases hv : validateContentLength maxChars msgs with
    | error m => rw [hv] at hcall; simp at hcall
    | ok u =>
      simp only [hv] at hcall
      cases hg : getAIProvider cfg reqP with
      | error m => rw [hg] at hcall; simp at hcall
      | ok p0 =>
        simp only [hg] at hcall
        cases hr : getResponse cfg upstream p0 (addSystemPrompt msgs) with
        | error m =>
          rw [hr] at hcall
          by_cases hc : isConfigured cfg p0 = true
          · simp only [hc, if_true, Option.some.injEq, Prod.mk.injEq] at hcall
            exact hcall.2.symm
          · simp only [Bool.not_eq_true] at hc
            simp [hc] at hcall
        | ok t =>
          simp only [hr, Option.some.injEq, Prod.mk.injEq] at hcall
          exact hcall.2.symm

/-- Witness for C10 at concrete message lists with and without a system
message and a concrete handler run. -/
theorem c10_default_system_prompt_witness :
    (([⟨"user", "hi"⟩] : List Msg).any (fun m => m.role == "system") = false ∧
      addSystemPrompt [⟨"user", "hi"⟩] =
        [⟨"system", systemPromptText⟩, ⟨"user", "hi"⟩]) ∧
    (([⟨"system", "s"⟩, ⟨"user", "hi"⟩] : List Msg).any
        (fun m => m.role == "system") = true ∧
      addSystemPrompt [⟨"system", "s"⟩, ⟨"user", "hi"⟩] =
        [⟨"system", "s"⟩, ⟨"user", "hi"⟩]) ∧
    (parseAIBody ⟨some [⟨"user", "hi"⟩], none⟩ = some ([⟨"user", "hi"⟩], none) ∧
      (replyHandler ⟨true, false, false⟩ 6000 (fun _ _ => .ok "reply")
        ⟨some [⟨"user", "hi"⟩], none⟩).providerCall =
        some (.openai, addSystemPrompt [⟨"user", "hi"⟩]) ∧
      addSystemPrompt [⟨"user", "hi"⟩] = addSystemPrompt [⟨"user", "hi"⟩]) := by
  refine ⟨⟨by decide, ?_⟩, ⟨by decide, ?_⟩, by decide, rfl, ?_⟩
  · exact (c10_default_system_prompt).1 [⟨"user", "hi"⟩] (by decide)
  · exact (c10_default_system_prompt).2.1 [⟨"system", "s"⟩, ⟨"user", "hi"⟩] (by decide)
  · exact (c10_default_system_prompt).2.2 ⟨true, false, false⟩ 6000
      (fun _ _ => .ok "reply") ⟨some [⟨"user", "hi"⟩], none⟩
      [⟨"user", "hi"⟩] none .openai (addSystemPrompt [⟨"user", "hi"⟩])
      (by decide) rfl

